import Mathlib

/-!
Shallow embedding of the FoodsSpot delivery backend (src/app.py).

Real-valued quantities are modelled over the rationals.  The geodesic
distance computed by the external geopy library (line 93) is a
transcendental function of the coordinates; the endpoint embedding is
therefore parameterised by an arbitrary distance function `D`, which is
sound for every claim below because none of them depends on the numeric
value of the geodesic formula itself.
-/

namespace FoodsSpot

/-- Python exception kinds that the embedded code can raise. -/
inductive PyErr
  | nameError
  | typeError
  | valueError
  | smtpException
deriving DecidableEq

/-- A coordinate: (latitude, longitude) pair (app.py line 85, the branch
registry values on lines 41-44). -/
def Coord : Type := ℚ × ℚ

instance : DecidableEq Coord := instDecidableEqProd

/-- app.py line 47. -/
def COST_PER_KM : ℚ := 50

/-- app.py line 48. -/
def AVERAGE_SPEED_KMPH : ℚ := 25

/-- app.py line 49: `MIN_COOKING_TIME_MINS = 30.0` (note the capital final S). -/
def MIN_COOKING_TIME_MINS : ℚ := 30

/-- app.py line 50. -/
def MIN_DELIVERY_CHARGE_PKR : ℚ := 100

/-- app.py line 97 reads the name `MIN_COOKING_TIME_MINs` (trailing
lowercase s).  That name is bound nowhere in the module — the constant
defined on line 49 is `MIN_COOKING_TIME_MINS` — so in Python evaluating
it raises `NameError`.  The read of the unbound name is embedded as an
erroring computation. -/
def MIN_COOKING_TIME_MINs : Except PyErr ℚ := .error .nameError

/-- app.py lines 52-54: `math.ceil(x / 5) * 5`. -/
def round_up_to_nearest_five (x : ℚ) : ℤ := ⌈x / 5⌉ * 5

/-- app.py lines 56-58: `math.ceil(x / 10) * 10`. -/
def round_up_to_nearest_ten (x : ℚ) : ℤ := ⌈x / 10⌉ * 10

/-- Python `round(x, 2)` (app.py line 107), display-only.  CPython rounds
the underlying binary float half to even; on exact rationals we use the
standard integer rounding of `x * 100`.  No claim depends on the
half-way tie behaviour of this display value. -/
def round2 (x : ℚ) : ℚ := (round (x * 100) : ℤ) / 100

/-- The per-branch record `branch_info` built on app.py lines 105-110. -/
structure Quote where
  branch_name : String
  total_kilometers : ℚ
  estimated_timing_minutes : ℤ
  total_amount_pkr : ℤ
deriving DecidableEq

/-- The branch registry, app.py lines 41-44.  A Python dict preserves
insertion order, so iteration order is the fixed listing order. -/
def BRANCH_LOCATIONS : List (String × Coord) :=
  [("Foods Spot FB Area", ((24.9268539 : ℚ), (67.0726341 : ℚ))),
   ("Foods Spot New Karachi Branch", ((24.9668316 : ℚ), (67.0682923 : ℚ)))]

/-- The loop body of app.py lines 96-110 for one branch at raw distance
`distance_km`: travel time, total time (line 97 — raises `NameError`, see
`MIN_COOKING_TIME_MINs`), rounded time, raw cost, minimum floor, rounded
cost, and the `branch_info` record. -/
def mkQuote (branch_name : String) (distance_km : ℚ) : Except PyErr Quote := do
  let estimated_time_travel := distance_km / AVERAGE_SPEED_KMPH * 60
  let cooking ← MIN_COOKING_TIME_MINs
  let estimated_time_total := estimated_time_travel + cooking
  let estimated_time_rounded := round_up_to_nearest_five estimated_time_total
  let total_amount_raw := distance_km * COST_PER_KM
  let total_amount_with_min := max total_amount_raw MIN_DELIVERY_CHARGE_PKR
  let total_amount_rounded := round_up_to_nearest_ten total_amount_with_min
  pure { branch_name := branch_name,
         total_kilometers := round2 distance_km,
         estimated_timing_minutes := estimated_time_rounded,
         total_amount_pkr := total_amount_rounded }

/-- The INTENDED total-time arithmetic, as the spec describes it (§4.1
steps 2-4: travel time at `AVERAGE_SPEED_KMPH`, plus the minimum cooking
time, rounded up to a multiple of 5), using the cooking-time value that
app.py line 49 defines.  This is not what the code executes: line 97
reads the unbound name `MIN_COOKING_TIME_MINs` and raises `NameError`
before any time is computed — the faithful embedding of the executed
loop body is `mkQuote`.  This definition serves only to state properties
of the intended arithmetic next to that code-level failure. -/
def estimated_time_from_distance (d : ℚ) : ℤ :=
  round_up_to_nearest_five (d / AVERAGE_SPEED_KMPH * 60 + MIN_COOKING_TIME_MINS)

/-- app.py lines 102-103 as a function of `total_amount_raw`: the
minimum-charge floor followed by the round-up-to-10. -/
def total_amount_from_raw (total_amount_raw : ℚ) : ℤ :=
  round_up_to_nearest_ten (max total_amount_raw MIN_DELIVERY_CHARGE_PKR)

/-- app.py lines 101-103 as a function of the raw distance. -/
def total_amount_from_distance (d : ℚ) : ℤ :=
  total_amount_from_raw (d * COST_PER_KM)

/-- One step of the nearest-branch tracking on app.py lines 113-116.
The state holds `(nearest_branch_info, min_distance)`; `none` models the
initial `nearest_branch_info = None, min_distance = float(Inf)` of lines
88-89 (any distance compares below Inf).  The element type is left
generic in `α`: the comparison reads only the raw distance component. -/
def nearestStep {α : Type} (acc : Option (α × ℚ)) (b : α × ℚ) : Option (α × ℚ) :=
  match acc with
  | none => some b
  | some best => if b.2 < best.2 then some b else some best

/-- The nearest-branch selection accumulated over the whole iteration
(app.py lines 88-89 and 113-116). -/
def selectNearest {α : Type} (bs : List (α × ℚ)) : Option (α × ℚ) :=
  bs.foldl nearestStep none

/-- The `for branch_name, branch_coords in BRANCH_LOCATIONS.items()` loop
of app.py lines 92-116, instrumented to return the `results` list built
so far together with either the final selection state or the exception
that escaped the loop body. -/
def branchLoop (D : Coord → Coord → ℚ) (customer_coords : Coord) :
    List (String × Coord) → List Quote → Option (Quote × ℚ) →
    List Quote × Except PyErr (Option (Quote × ℚ))
  | [], results, nearest => (results, .ok nearest)
  | (branch_name, branch_coords) :: rest, results, nearest =>
    let distance_km := D customer_coords branch_coords
    match mkQuote branch_name distance_km with
    | .error e => (results, .error e)
    | .ok branch_info =>
        branchLoop D customer_coords rest (results ++ [branch_info])
          (nearestStep nearest (branch_info, distance_km))

/-- A JSON value in a coordinate field, abstracted by how Python
`float()` treats it (app.py line 85): either it converts to a number
(numbers, booleans, numeric strings) or the conversion raises. -/
inductive PyVal
  | numeric (q : ℚ)
  | nonNumeric
deriving DecidableEq

/-- `float()` on a request field value (app.py line 85). -/
def pyFloat : PyVal → Except PyErr ℚ
  | .numeric q => .ok q
  | .nonNumeric => .error .valueError

/-- The JSON request body: each coordinate field is present or absent
(app.py line 81 membership test).  A `None` body from `get_json` is
modelled by `Option Req` at the call site. -/
structure Req where
  customer_latitude : Option PyVal
  customer_longitude : Option PyVal
deriving DecidableEq

/-- The outcome of the `/calculate-delivery` handler: the 400 response of
app.py line 83, the 200 response of lines 119-127 (carrying the nearest
`branch_info`, whose fields lines 120-123 stringify), or the generic 500
response of lines 129-141. -/
inductive DeliveryResult
  | badRequest (msg : String)
  | ok (nearest_branch_info : Quote)
  | serverError
deriving DecidableEq

/-- The HTTP status code attached to each outcome (app.py lines 83, 127,
141). -/
def DeliveryResult.status : DeliveryResult → ℕ
  | .badRequest _ => 400
  | .ok _ => 200
  | .serverError => 500

/-- The 400 message of app.py line 83. -/
def invalidMsg : String :=
  "Invalid input. Please provide customer_latitude and customer_longitude."

/-- app.py lines 75-141 with the branch registry as a parameter, paired
with the `results` list the loop had built when the response was
produced.  An exception anywhere in the `try` block (the `float`
conversions of line 85, the loop body, or the `None` subscript of line
120 when the registry is empty) lands in the `except` of line 129, the
generic 500. -/
def calcDeliveryWith (branches : List (String × Coord)) (D : Coord → Coord → ℚ)
    (data : Option Req) : DeliveryResult × List Quote :=
  match data with
  | none => (.badRequest invalidMsg, [])
  | some d =>
    match d.customer_latitude, d.customer_longitude with
    | none, _ => (.badRequest invalidMsg, [])
    | some _, none => (.badRequest invalidMsg, [])
    | some latv, some lonv =>
      match pyFloat latv with
      | .error _ => (.serverError, [])
      | .ok lat =>
        match pyFloat lonv with
        | .error _ => (.serverError, [])
        | .ok lon =>
          let customer_coords : Coord := (lat, lon)
          match branchLoop D customer_coords branches [] none with
          | (results, .error _) => (.serverError, results)
          | (results, .ok none) => (.serverError, results)
          | (results, .ok (some (nearest_branch_info, _))) =>
              (.ok nearest_branch_info, results)

/-- The `/calculate-delivery` endpoint (app.py lines 64-141), iterating
over the hardcoded registry. -/
def calculate_delivery (D : Coord → Coord → ℚ) (data : Option Req) :
    DeliveryResult × List Quote :=
  calcDeliveryWith BRANCH_LOCATIONS D data

/-- The JSON payload built on app.py lines 188-198 for the messaging
API (the `template` sub-object flattened into its two leaves). -/
structure WhatsAppPayload where
  messaging_product : String
  «to» : String
  type : String
  template_name : String
  language_code : String
deriving DecidableEq

/-- The payload-construction part of `send_whatsapp_message` (app.py
lines 175-198).  Line 185 rebinds `recipient_phone_number` to the
hardcoded string before the payload is built, so the parameter of the
same name is dead.  The HTTP POST of lines 200-207 only transmits this
payload and is outside the model. -/
def send_whatsapp_message (customer_name order_details total_amount
    delivery_address recipient_phone_number : Option String) : WhatsAppPayload :=
  let recipient_phone_number : String := "923332252591"
  { messaging_product := "whatsapp",
    «to» := recipient_phone_number,
    type := "template",
    template_name := "hello_world",
    language_code := "en_US" }

/-- The JSON body of a `/send-whatsapp` request, fields read with
`data.get(...)` on app.py lines 213-217. -/
structure WhatsAppReq where
  customer_name : Option String
  order_details : Option String
  total_amount : Option String
  delivery_address : Option String
  recipient_phone : Option String

/-- The payload that the `/send-whatsapp` handler (app.py lines 209-218)
passes to the messaging API for a given request body. -/
def handle_whatsapp_payload (data : WhatsAppReq) : WhatsAppPayload :=
  send_whatsapp_message data.customer_name data.order_details
    data.total_amount data.delivery_address data.recipient_phone

/-- Outcome of one external SMTP call: it returns, or it raises. -/
inductive SmtpOutcome
  | ok
  | raises
deriving DecidableEq

/-- The outcomes of the five smtplib calls made inside the `try` block of
`send_email_notification` (app.py lines 162-168): constructor, starttls,
login, sendmail, quit.  The MIME-message construction of lines 153-160
is pure string assembly and cannot raise. -/
structure SmtpEnv where
  connect : SmtpOutcome
  starttls : SmtpOutcome
  login : SmtpOutcome
  sendmail : SmtpOutcome
  quit : SmtpOutcome

/-- Embeds one SMTP call outcome as a possibly-raising computation. -/
def runStep : SmtpOutcome → Except PyErr Unit
  | .ok => .ok ()
  | .raises => .error .smtpException

/-- The `try` block body of `send_email_notification` (app.py lines
145-169): the five smtplib calls in program order; the first one that
raises aborts the rest. -/
def send_email_try_body (env : SmtpEnv) : Except PyErr Unit := do
  runStep env.connect
  runStep env.starttls
  runStep env.login
  runStep env.sendmail
  runStep env.quit

/-- `send_email_notification` (app.py lines 143-173): the whole body sits
in a `try`; `except Exception` (line 170) turns any raise into `return
False` (line 172), otherwise `return True` (line 173). -/
def send_email_notification (env : SmtpEnv) (subject body : String) : Bool :=
  match send_email_try_body env with
  | .ok _ => true
  | .error _ => false

/-- The JSON body of a `/send-order-confirmation` request, fields read
with `data.get(...)` on app.py lines 230-250. -/
structure OrderData where
  customer_name : Option String
  order_details : Option String
  total_amount : Option String
  customer_phone : Option String
  delivery_address : Option String
  special_instructions : Option String

/-- Python string interpolation of a possibly-absent field: `str(None)`
prints as `None`. -/
def pyStr : Option String → String
  | some s => s
  | none => "None"

/-- The email body assembled by the f-string of app.py lines 229-258
(whitespace elided; same fields in the same order). -/
def order_email_body (data : OrderData) : String :=
  "Hello " ++ pyStr data.customer_name ++
  ", Thank you for your order! Order: " ++ pyStr data.order_details ++
  " Total Amount: " ++ pyStr data.total_amount ++
  " PKR Name: " ++ pyStr data.customer_name ++
  " Phone Number: " ++ pyStr data.customer_phone ++
  " Delivery Address: " ++ pyStr data.delivery_address ++
  " Special Instructions: " ++ pyStr data.special_instructions

/-- The `/send-order-confirmation` handler (app.py lines 224-264):
status code and message of the JSON answer. -/
def handle_order_confirmation_request (env : SmtpEnv) (data : OrderData) :
    ℕ × String :=
  let success := send_email_notification env
    "Your Foods Spot Order Confirmation" (order_email_body data)
  if success then (200, "Email notification sent.")
  else (500, "Failed to send email notification.")

/-! Helper lemmas shared by the claim theorems. -/

/-- The loop body raises `NameError` for every branch name and distance:
the bind on the unbound name of line 97 short-circuits the rest. -/
theorem mkQuote_eq_error (branch_name : String) (distance_km : ℚ) :
    mkQuote branch_name distance_km = .error .nameError := rfl

/-- Evaluation helper: the ceiling of a rational that is an integer cast
times five. -/
theorem round_up_five_mul (k : ℤ) :
    round_up_to_nearest_five ((k : ℚ) * 5) = k * 5 := by
  unfold round_up_to_nearest_five
  rw [show ((k : ℚ) * 5) / 5 = ((k : ℤ) : ℚ) by field_simp, Int.ceil_intCast]

/-- Evaluation helper: the ceiling of a rational that is an integer cast
times ten. -/
theorem round_up_ten_mul (k : ℤ) :
    round_up_to_nearest_ten ((k : ℚ) * 10) = k * 10 := by
  unfold round_up_to_nearest_ten
  rw [show ((k : ℚ) * 10) / 10 = ((k : ℤ) : ℚ) by field_simp, Int.ceil_intCast]

/-- The invariant of the selection loop of app.py lines 113-116, run from
an already-populated state `best`: either no later branch is strictly
closer and `best` survives, or the result is the first branch of the
remaining list that attains the minimum, every branch before it in the
list being strictly farther. -/
theorem foldl_nearestStep_spec {α : Type} (bs : List (α × ℚ)) :
    ∀ best : α × ℚ,
      (bs.foldl nearestStep (some best) = some best ∧ ∀ b ∈ bs, best.2 ≤ b.2) ∨
      (∃ sel pre suf, bs.foldl nearestStep (some best) = some sel ∧
        bs = pre ++ sel :: suf ∧ sel.2 < best.2 ∧
        (∀ b ∈ bs, sel.2 ≤ b.2) ∧ (∀ b ∈ pre, sel.2 < b.2)) := by
  induction bs with
  | nil =>
    intro best
    left
    exact ⟨rfl, by intro b hb; cases hb⟩
  | cons hd tl ih =>
    intro best
    rw [List.foldl_cons]
    by_cases hlt : hd.2 < best.2
    · have hstep : nearestStep (some best) hd = some hd := by
        simp [nearestStep, hlt]
      rw [hstep]
      rcases ih hd with ⟨heq, hall⟩ | ⟨sel, pre, suf, heq, hdec, hlt2, hall, hpre⟩
      · right
        refine ⟨hd, [], tl, heq, rfl, hlt, ?_, ?_⟩
        · intro b hb
          rcases List.mem_cons.mp hb with rfl | hb
          · exact le_refl _
          · exact hall b hb
        · intro b hb
          cases hb
      · right
        refine ⟨sel, hd :: pre, suf, heq, by simp [hdec], lt_trans hlt2 hlt, ?_, ?_⟩
        · intro b hb
          rcases List.mem_cons.mp hb with rfl | hb
          · exact le_of_lt hlt2
          · exact hall b hb
        · intro b hb
          rcases List.mem_cons.mp hb with rfl | hb
          · exact hlt2
          · exact hpre b hb
    · have hstep : nearestStep (some best) hd = some best := by
        simp [nearestStep, hlt]
      rw [hstep]
      rcases ih best with ⟨heq, hall⟩ | ⟨sel, pre, suf, heq, hdec, hlt2, hall, hpre⟩
      · left
        refine ⟨heq, ?_⟩
        intro b hb
        rcases List.mem_cons.mp hb with rfl | hb
        · exact le_of_not_lt hlt
        · exact hall b hb
      · right
        refine ⟨sel, hd :: pre, suf, heq, by simp [hdec], hlt2, ?_, ?_⟩
        · intro b hb
          rcases List.mem_cons.mp hb with rfl | hb
          · exact le_trans (le_of_lt hlt2) (le_of_not_lt hlt)
          · exact hall b hb
        · intro b hb
          rcases List.mem_cons.mp hb with rfl | hb
          · exact lt_of_lt_of_le hlt2 (le_of_not_lt hlt)
          · exact hpre b hb

/-! Claim theorems. -/

/-- C1: the claim says /calculate-delivery produces one Quote per branch
and designates the raw-distance minimizer; in the code, the loop body
raises `NameError` on its first iteration (line 97 reads the unbound
name `MIN_COOKING_TIME_MINs`), so a request with valid coordinates gets
the generic 500 answer and zero quotes are built, although the registry
holds two branches. -/
theorem calculate_delivery_valid_input_yields_500_and_no_quotes :
    calculate_delivery (fun _ _ => 4)
        (some ⟨some (.numeric 24.93), some (.numeric 67.08)⟩) =
      (.serverError, []) ∧
    BRANCH_LOCATIONS.length = 2 :=
  ⟨rfl, rfl⟩

/-- C2: the claim says the calculator fails only on an empty registry;
in the code it fails for EVERY non-empty registry and valid numeric
coordinates, because the first loop iteration raises `NameError`
(line 97). -/
theorem calculator_fails_for_every_nonempty_registry
    (branches : List (String × Coord)) (h : branches ≠ [])
    (D : Coord → Coord → ℚ) (lat lon : ℚ) :
    (calcDeliveryWith branches D
        (some ⟨some (.numeric lat), some (.numeric lon)⟩)).1 =
      DeliveryResult.serverError := by
  match branches, h with
  | (branch_name, branch_coords) :: rest, _ => rfl

/-- Witness for C2 at a concrete one-branch registry. -/
theorem calculator_fails_for_every_nonempty_registry_witness :
    (calcDeliveryWith [("Branch", ((0 : ℚ), (0 : ℚ)))] (fun _ _ => 1)
        (some ⟨some (.numeric 1), some (.numeric 2)⟩)).1 =
      DeliveryResult.serverError :=
  calculator_fails_for_every_nonempty_registry
    [("Branch", ((0 : ℚ), (0 : ℚ)))] (List.cons_ne_nil _ _) (fun _ _ => 1) 1 2

/-- C3 counterexample: a request whose `customer_latitude` is a
non-numeric value is answered with the generic 500 (the `float` call of
line 85 raises into the `except` of line 129), not with the 400
Invalid-Input response the claim requires; no quote is computed. -/
theorem nonnumeric_latitude_answered_with_500 :
    (calculate_delivery (fun _ _ => 4)
        (some ⟨some .nonNumeric, some (.numeric 67.08)⟩)).1.status = 500 ∧
    ¬ (calculate_delivery (fun _ _ => 4)
        (some ⟨some .nonNumeric, some (.numeric 67.08)⟩)).1.status = 400 ∧
    (calculate_delivery (fun _ _ => 4)
        (some ⟨some .nonNumeric, some (.numeric 67.08)⟩)).2 = [] := by
  have h500 : (calculate_delivery (fun _ _ => 4)
      (some ⟨some .nonNumeric, some (.numeric 67.08)⟩)).1.status = 500 := rfl
  refine ⟨h500, ?_, rfl⟩
  rw [h500]
  decide

/-- C3 (amended): a missing body or a missing coordinate field is
answered with the 400 Invalid-Input message and no quote is computed; a
present but non-numeric coordinate value also computes no quote but is
answered with the generic 500. -/
theorem invalid_or_nonnumeric_input_no_quote
    (D : Coord → Coord → ℚ) (r : Req) :
    ((r.customer_latitude = none ∨ r.customer_longitude = none) →
        calculate_delivery D (some r) = (.badRequest invalidMsg, [])) ∧
    calculate_delivery D none = (.badRequest invalidMsg, []) ∧
    (∀ lv : PyVal, calculate_delivery D (some ⟨some .nonNumeric, some lv⟩) =
        (.serverError, [])) ∧
    (∀ q : ℚ, calculate_delivery D (some ⟨some (.numeric q), some .nonNumeric⟩) =
        (.serverError, [])) := by
  refine ⟨?_, rfl, fun lv => rfl, fun q => rfl⟩
  rintro (h | h)
  · obtain ⟨la, lo⟩ := r
    cases h
    rfl
  · obtain ⟨la, lo⟩ := r
    cases h
    cases la <;> rfl

/-- Witness for C3 (amended) at a concrete missing-longitude request. -/
theorem invalid_or_nonnumeric_input_no_quote_witness :
    calculate_delivery (fun _ _ => 0) (some ⟨some (.numeric 24.93), none⟩) =
      (.badRequest invalidMsg, []) :=
  (invalid_or_nonnumeric_input_no_quote (fun _ _ => 0)
    ⟨some (.numeric 24.93), none⟩).1 (Or.inr rfl)

/-- C5: the minimum-charge floor of line 102 is applied before the
round-up-to-10 of line 103: every raw cost below the minimum yields the
rounded minimum, which is 100; raw cost 95 yields 100 and raw cost 105
yields 110. -/
theorem total_amount_floor_before_rounding :
    (∀ raw : ℚ, raw < MIN_DELIVERY_CHARGE_PKR →
        total_amount_from_raw raw =
          round_up_to_nearest_ten MIN_DELIVERY_CHARGE_PKR) ∧
    round_up_to_nearest_ten MIN_DELIVERY_CHARGE_PKR = 100 ∧
    total_amount_from_raw 95 = 100 ∧
    total_amount_from_raw 105 = 110 := by
  have h100 : round_up_to_nearest_ten MIN_DELIVERY_CHARGE_PKR = 100 := by
    unfold MIN_DELIVERY_CHARGE_PKR
    rw [show (100 : ℚ) = ((10 : ℤ) : ℚ) * 10 by norm_num, round_up_ten_mul]
    norm_num
  refine ⟨?_, h100, ?_, ?_⟩
  · intro raw hraw
    unfold total_amount_from_raw
    rw [max_eq_right (le_of_lt hraw)]
  · unfold total_amount_from_raw
    rw [max_eq_right (by norm_num [MIN_DELIVERY_CHARGE_PKR] :
      (95 : ℚ) ≤ MIN_DELIVERY_CHARGE_PKR)]
    exact h100
  · unfold total_amount_from_raw round_up_to_nearest_ten
    rw [max_eq_left (by norm_num [MIN_DELIVERY_CHARGE_PKR] :
      MIN_DELIVERY_CHARGE_PKR ≤ 105)]
    rw [show ⌈(105 : ℚ) / 10⌉ = (11 : ℤ) by rw [Int.ceil_eq_iff] ; norm_num]
    norm_num

/-- Witness for C5 at raw cost 95. -/
theorem total_amount_floor_before_rounding_witness :
    (95 : ℚ) < MIN_DELIVERY_CHARGE_PKR ∧
    total_amount_from_raw 95 = round_up_to_nearest_ten MIN_DELIVERY_CHARGE_PKR :=
  ⟨by decide, total_amount_floor_before_rounding.1 95 (by decide)⟩

/-- C6: the claim states the scenario values of the quote pipeline.  The
code itself raises `NameError` at the total-time step of line 97 instead
of producing them; the arithmetic of lines 96-103 with the cooking-time
constant of line 49 does yield exactly the claimed values: travel time
9.6 min, total 39.6 min, rounded 40 min and cost 200 at distance 4 km,
and time 30 min, cost 100 at distance 0 km. -/
theorem scenario_pipeline_values :
    mkQuote "Foods Spot FB Area" 4 = .error .nameError ∧
    (4 : ℚ) / AVERAGE_SPEED_KMPH * 60 = 9.6 ∧
    (9.6 : ℚ) + MIN_COOKING_TIME_MINS = 39.6 ∧
    estimated_time_from_distance 4 = 40 ∧
    total_amount_from_distance 4 = 200 ∧
    estimated_time_from_distance 0 = 30 ∧
    total_amount_from_distance 0 = 100 := by
  refine ⟨rfl, ?_, ?_, ?_, ?_, ?_, ?_⟩
  · norm_num [AVERAGE_SPEED_KMPH]
  · norm_num [MIN_COOKING_TIME_MINS]
  · unfold estimated_time_from_distance round_up_to_nearest_five
    rw [show ((4 : ℚ) / AVERAGE_SPEED_KMPH * 60 + MIN_COOKING_TIME_MINS) / 5 =
      198 / 25 by norm_num [AVERAGE_SPEED_KMPH, MIN_COOKING_TIME_MINS]]
    rw [show ⌈(198 / 25 : ℚ)⌉ = (8 : ℤ) by rw [Int.ceil_eq_iff] ; norm_num]
    norm_num
  · unfold total_amount_from_distance total_amount_from_raw
    rw [show max ((4 : ℚ) * COST_PER_KM) MIN_DELIVERY_CHARGE_PKR =
      ((20 : ℤ) : ℚ) * 10 by norm_num [COST_PER_KM, MIN_DELIVERY_CHARGE_PKR]]
    rw [round_up_ten_mul]
    norm_num
  · unfold estimated_time_from_distance
    rw [show (0 : ℚ) / AVERAGE_SPEED_KMPH * 60 + MIN_COOKING_TIME_MINS =
      ((6 : ℤ) : ℚ) * 5 by norm_num [AVERAGE_SPEED_KMPH, MIN_COOKING_TIME_MINS]]
    rw [round_up_five_mul]
    norm_num
  · unfold total_amount_from_distance total_amount_from_raw
    rw [show max ((0 : ℚ) * COST_PER_KM) MIN_DELIVERY_CHARGE_PKR =
      ((10 : ℤ) : ℚ) * 10 by norm_num [COST_PER_KM, MIN_DELIVERY_CHARGE_PKR]]
    rw [round_up_ten_mul]
    norm_num

/-- C7: both ceiling-rounding helpers are idempotent — applied to any
value they have already produced they return it unchanged — and exact
multiples of 5 (resp. 10) are left unchanged; in particular 30 stays
30. -/
theorem rounding_idempotent_and_fixes_multiples :
    (∀ x : ℚ, round_up_to_nearest_five ((round_up_to_nearest_five x : ℤ) : ℚ) =
        round_up_to_nearest_five x) ∧
    (∀ x : ℚ, round_up_to_nearest_ten ((round_up_to_nearest_ten x : ℤ) : ℚ) =
        round_up_to_nearest_ten x) ∧
    (∀ k : ℤ, round_up_to_nearest_five ((k : ℚ) * 5) = k * 5) ∧
    (∀ k : ℤ, round_up_to_nearest_ten ((k : ℚ) * 10) = k * 10) ∧
    round_up_to_nearest_five 30 = 30 := by
  refine ⟨?_, ?_, round_up_five_mul, round_up_ten_mul, ?_⟩
  · intro x
    have h : ((round_up_to_nearest_five x : ℤ) : ℚ) = ((⌈x / 5⌉ : ℤ) : ℚ) * 5 := by
      unfold round_up_to_nearest_five
      push_cast
      ring
    rw [h, round_up_five_mul]
    rfl
  · intro x
    have h : ((round_up_to_nearest_ten x : ℤ) : ℚ) = ((⌈x / 10⌉ : ℤ) : ℚ) * 10 := by
      unfold round_up_to_nearest_ten
      push_cast
      ring
    rw [h, round_up_ten_mul]
    rfl
  · rw [show (30 : ℚ) = ((6 : ℤ) : ℚ) * 5 by norm_num, round_up_five_mul]
    norm_num

/-- C9: whatever arguments `send_whatsapp_message` receives — including
the `recipient_phone` taken from the /send-whatsapp request body — the
payload it builds for the messaging API carries the hardcoded recipient
of line 185. -/
theorem whatsapp_recipient_hardcoded
    (customer_name order_details total_amount delivery_address
      recipient_phone_number : Option String) :
    (send_whatsapp_message customer_name order_details total_amount
        delivery_address recipient_phone_number).«to» = "923332252591" ∧
    ∀ data : WhatsAppReq, (handle_whatsapp_payload data).«to» = "923332252591" :=
  ⟨rfl, fun _ => rfl⟩

/-- C10: `send_email_notification` maps every outcome of the SMTP calls
to a plain boolean — `true` when the try-block body ran to completion,
`false` when any step raised — so the /send-order-confirmation handler
always answers 200 or 500. -/
theorem email_failure_contained (env : SmtpEnv) (subject body : String)
    (data : OrderData) :
    ((send_email_try_body env = .ok () ∧
        send_email_notification env subject body = true) ∨
      (∃ e, send_email_try_body env = .error e ∧
        send_email_notification env subject body = false)) ∧
    ((handle_order_confirmation_request env data).1 = 200 ∨
      (handle_order_confirmation_request env data).1 = 500) := by
  constructor
  · cases hb : send_email_try_body env with
    | ok u =>
      left
      refine ⟨rfl, ?_⟩
      unfold send_email_notification
      rw [hb]
    | error e =>
      right
      refine ⟨e, rfl, ?_⟩
      unfold send_email_notification
      rw [hb]
  · cases hs : send_email_notification env "Your Foods Spot Order Confirmation"
      (order_email_body data) with
    | false =>
      right
      simp [handle_order_confirmation_request, hs]
    | true =>
      left
      simp [handle_order_confirmation_request, hs]

/-- C4: for every non-empty list of items paired with their raw
distances, the selection of app.py lines 113-116 returns an item that
attains the minimum raw distance and is strictly closer than everything
listed before it (a strictly smaller distance is needed to displace the
current best), and in particular for two equidistant items the one
listed first is selected.  The item type `α` is arbitrary, so the
rounded display values carried inside a `branch_info` cannot influence
the selection. -/
theorem selectNearest_first_minimizer {α : Type} (bs : List (α × ℚ))
    (h : bs ≠ []) :
    (∃ sel pre suf, selectNearest bs = some sel ∧ bs = pre ++ sel :: suf ∧
        (∀ b ∈ bs, sel.2 ≤ b.2) ∧ (∀ b ∈ pre, sel.2 < b.2)) ∧
    (∀ (x y : α) (q : ℚ), selectNearest [(x, q), (y, q)] = some (x, q)) := by
  constructor
  · match bs, h with
    | hd :: tl, _ =>
      unfold selectNearest
      rw [List.foldl_cons]
      rw [show nearestStep (α := α) none hd = some hd from rfl]
      rcases foldl_nearestStep_spec tl hd with ⟨heq, hall⟩ |
        ⟨sel, pre, suf, heq, hdec, hlt, hall, hpre⟩
      · refine ⟨hd, [], tl, heq, rfl, ?_, ?_⟩
        · intro b hb
          rcases List.mem_cons.mp hb with rfl | hb
          · exact le_refl _
          · exact hall b hb
        · intro b hb
          cases hb
      · refine ⟨sel, hd :: pre, suf, heq, by simp [hdec], ?_, ?_⟩
        · intro b hb
          rcases List.mem_cons.mp hb with rfl | hb
          · exact le_of_lt hlt
          · exact hall b hb
        · intro b hb
          rcases List.mem_cons.mp hb with rfl | hb
          · exact hlt
          · exact hpre b hb
  · intro x y q
    unfold selectNearest
    simp [nearestStep, List.foldl, lt_irrefl]

/-- Witness for C4 at a concrete two-branch list. -/
theorem selectNearest_first_minimizer_witness :
    (∃ sel pre suf,
        selectNearest [(("A" : String), (2 : ℚ)), ("B", (1 : ℚ))] = some sel ∧
        [(("A" : String), (2 : ℚ)), ("B", (1 : ℚ))] = pre ++ sel :: suf ∧
        (∀ b ∈ [(("A" : String), (2 : ℚ)), ("B", (1 : ℚ))], sel.2 ≤ b.2) ∧
        (∀ b ∈ pre, sel.2 < b.2)) ∧
    (∀ (x y : String) (q : ℚ), selectNearest [(x, q), (y, q)] = some (x, q)) :=
  selectNearest_first_minimizer [(("A" : String), (2 : ℚ)), ("B", (1 : ℚ))]
    (List.cons_ne_nil _ _)

/-- C8: the claim says the computed rounded cost and rounded estimated
time never decrease as distance grows.  The code computes neither: at
every distance the loop body raises `NameError` on line 97, before the
time of line 98 or the cost of lines 101-103 is reached, so no computed
value exists to compare — proved here against the faithful `mkQuote`.
The intended arithmetic (cost per lines 101-103, time per the spec with
the line-49 constant, see `estimated_time_from_distance`) is indeed
monotone in the distance, exactly as the claim states. -/
theorem monotonicity_code_error_and_intended_arithmetic :
    (∀ d : ℚ, mkQuote "Foods Spot FB Area" d = .error .nameError) ∧
    (∀ d1 d2 : ℚ, d1 ≤ d2 →
        total_amount_from_distance d1 ≤ total_amount_from_distance d2 ∧
        estimated_time_from_distance d1 ≤ estimated_time_from_distance d2) := by
  constructor
  · intro d
    exact mkQuote_eq_error _ _
  · intro d1 d2 h
    constructor
    · unfold total_amount_from_distance total_amount_from_raw
        round_up_to_nearest_ten
      have h1 : d1 * COST_PER_KM ≤ d2 * COST_PER_KM :=
        mul_le_mul_of_nonneg_right h (by norm_num [COST_PER_KM])
      have h2 : max (d1 * COST_PER_KM) MIN_DELIVERY_CHARGE_PKR / 10 ≤
          max (d2 * COST_PER_KM) MIN_DELIVERY_CHARGE_PKR / 10 :=
        div_le_div_of_nonneg_right (max_le_max h1 le_rfl) (by norm_num)
      exact mul_le_mul_of_nonneg_right (Int.ceil_le_ceil h2) (by norm_num)
    · unfold estimated_time_from_distance round_up_to_nearest_five
      have h1 : d1 / AVERAGE_SPEED_KMPH ≤ d2 / AVERAGE_SPEED_KMPH :=
        div_le_div_of_nonneg_right h (by norm_num [AVERAGE_SPEED_KMPH])
      have h2 : (d1 / AVERAGE_SPEED_KMPH * 60 + MIN_COOKING_TIME_MINS) / 5 ≤
          (d2 / AVERAGE_SPEED_KMPH * 60 + MIN_COOKING_TIME_MINS) / 5 :=
        div_le_div_of_nonneg_right
          (add_le_add_right (mul_le_mul_of_nonneg_right h1 (by norm_num)) _)
          (by norm_num)
      exact mul_le_mul_of_nonneg_right (Int.ceil_le_ceil h2) (by norm_num)

/-- Witness for C8: the code error at distance 4, and the intended
monotonicity at the concrete pair 0 ≤ 4. -/
theorem monotonicity_code_error_and_intended_arithmetic_witness :
    mkQuote "Foods Spot FB Area" 4 = .error .nameError ∧
    (0 : ℚ) ≤ 4 ∧
    total_amount_from_distance 0 ≤ total_amount_from_distance 4 ∧
    estimated_time_from_distance 0 ≤ estimated_time_from_distance 4 :=
  ⟨monotonicity_code_error_and_intended_arithmetic.1 4,
   by decide,
   (monotonicity_code_error_and_intended_arithmetic.2 0 4 (by decide)).1,
   (monotonicity_code_error_and_intended_arithmetic.2 0 4 (by decide)).2⟩

end FoodsSpot
